import Mathlib

/-!
Verification of the seat-reconciliation core of terraform-provider-coderabbit.

The embedding models, from `internal/client/client.go`:
  * `calculateBackoff` — exponential backoff, durations as natural numbers of
    nanoseconds (the Go code computes via float64, exact for the relevant range);
  * `doRequest` — the retry loop of the resilient request executor.  Network
    behaviour is a script mapping the attempt index to the outcome of that
    attempt (transport failure, unreadable body, or a status code with a body).
    `json.Marshal` of the request structs (plain string fields) cannot fail in
    Go, so the dead marshal-error branch is omitted; request construction from
    constant method/path likewise cannot fail.  The result is a trace recording
    the returned value, the sleeps performed (in order) and the number of
    attempts made;
  * `GetGitUserID` — the identity-resolver loop with its dedicated 404 branch;
  * `GetSeats` / `InvalidateSeatsCache` / `AssignSeat` / `UnassignSeat` /
    `HasSeat` — the cached client operations, with the cache as explicit state
    (the mutex discipline serialises them; the sequential semantics is modelled).
    Each operation also reports how many upstream roster fetches it performed.
HTTP bodies are opaque: a body carries its raw text plus the result of each
`json.Unmarshal` the code may apply to it.

From `internal/resources/seats_resource.go` the reconciler operations
`Create`, `Read`, `Delete` are modelled as `SeatsCreate`, `SeatsRead`,
`SeatsDelete`, each returning an outcome plus the mutated client state and a
count of assign/unassign calls issued.
-/

/-- Retry configuration, `RetryConfig` in client.go.  Durations in nanoseconds. -/
structure RetryConfig where
  maxRetries : Nat
  baseDelay : Nat
  maxDelay : Nat
  retryableStatusCodes : List Nat
deriving DecidableEq

/-- `DefaultRetryConfig` in client.go. -/
def defaultRetryConfig : RetryConfig :=
  { maxRetries := 3
    baseDelay := 1000000000
    maxDelay := 30000000000
    retryableStatusCodes := [429, 500, 502, 503, 504] }

/-- `Client.isRetryableStatus`: linear scan of the retryable status list. -/
def isRetryableStatus (cfg : RetryConfig) (statusCode : Nat) : Bool :=
  cfg.retryableStatusCodes.contains statusCode

/-- `Client.calculateBackoff`: `baseDelay * 2^attempt`, clamped to `maxDelay`. -/
def calculateBackoff (cfg : RetryConfig) (attempt : Nat) : Nat :=
  let delay := cfg.baseDelay * 2 ^ attempt
  if delay > cfg.maxDelay then cfg.maxDelay else delay

/-- `ErrorResponse` in client.go: `{errors: [{message}, ...]}`, flattened to
the list of messages. -/
structure ErrorResponse where
  errors : List String
deriving DecidableEq

/-- `ErrorResponse.Error()`: first message, or "unknown error". -/
def ErrorResponse.errMsg (e : ErrorResponse) : String :=
  match e.errors with
  | m :: _ => m
  | [] => "unknown error"

/-- `SeatUser` in client.go. -/
structure SeatUser where
  gitUserID : String
  seatAssigned : Bool
deriving DecidableEq

/-- `SeatsResponse` in client.go: the roster. -/
structure SeatsResponse where
  users : List SeatUser
deriving DecidableEq

/-- An HTTP response body, abstracted: the raw text together with the result of
each `json.Unmarshal` the client may apply to it (`none` = parse failure). -/
structure RespBody where
  raw : String
  errorDoc : Option ErrorResponse
  successDoc : Option Bool
  seatsDoc : Option SeatsResponse
deriving DecidableEq

/-- Outcome of one attempt of the executor, as scripted by the environment:
transport failure (`HTTPClient.Do` error), unreadable body (`io.ReadAll`
error), or a response with a status code and body. -/
inductive AttemptOutcome where
  | transportFail (msg : String)
  | readFail (msg : String)
  | resp (status : Nat) (body : RespBody)
deriving DecidableEq

/-- A transient error recorded in `lastErr` inside `doRequest`'s loop. -/
inductive TransientErr where
  | transport (msg : String)
  | readBody (msg : String)
  | httpStatus (status : Nat) (body : String)
deriving DecidableEq

/-- Errors returned by `doRequest`: a non-retryable API error (status and
rendered message), or retry exhaustion wrapping the last transient error. -/
inductive ReqErr where
  | apiError (status : Nat) (msg : String)
  | exhausted (maxRetries : Nat) (last : Option TransientErr)
deriving DecidableEq

/-- The message of the non-retryable `>= 400` branch of `doRequest`: the parsed
error document's message when the body unmarshals as one, else the raw body. -/
def renderAPIError (status : Nat) (body : RespBody) : String :=
  match body.errorDoc with
  | some e => "API error (status " ++ toString status ++ "): " ++ e.errMsg
  | none => "API error (status " ++ toString status ++ "): " ++ body.raw

deriving instance DecidableEq for Except

/-- Trace of one `doRequest` call: final result, sleeps performed in order,
and number of attempts made. -/
structure DoTrace where
  result : Except ReqErr RespBody
  sleeps : List Nat
  attempts : Nat
deriving DecidableEq

/-- The attempt loop of `Client.doRequest`, fuel = remaining iterations.  Each
iteration sleeps `calculateBackoff (attempt-1)` when `attempt > 0`, performs the
scripted attempt, and either continues with an updated `lastErr` (transport
failure, unreadable body, retryable status) or stops (non-retryable `>= 400`
fails with the rendered message; status `< 400` succeeds with the body).
Running out of fuel wraps the last transient error as exhaustion. -/
def doRequestAux (cfg : RetryConfig) (script : Nat → AttemptOutcome)
    (attempt : Nat) (lastErr : Option TransientErr) : Nat → DoTrace
  | 0 => { result := .error (.exhausted cfg.maxRetries lastErr), sleeps := [], attempts := 0 }
  | fuel + 1 =>
    let thisSleeps := if attempt > 0 then [calculateBackoff cfg (attempt - 1)] else []
    match script attempt with
    | .transportFail m =>
      let t := doRequestAux cfg script (attempt + 1) (some (.transport m)) fuel
      { result := t.result, sleeps := thisSleeps ++ t.sleeps, attempts := t.attempts + 1 }
    | .readFail m =>
      let t := doRequestAux cfg script (attempt + 1) (some (.readBody m)) fuel
      { result := t.result, sleeps := thisSleeps ++ t.sleeps, attempts := t.attempts + 1 }
    | .resp status body =>
      if isRetryableStatus cfg status then
        let t := doRequestAux cfg script (attempt + 1)
          (some (.httpStatus status body.raw)) fuel
        { result := t.result, sleeps := thisSleeps ++ t.sleeps, attempts := t.attempts + 1 }
      else if 400 ≤ status then
        { result := .error (.apiError status (renderAPIError status body)),
          sleeps := thisSleeps, attempts := 1 }
      else
        { result := .ok body, sleeps := thisSleeps, attempts := 1 }

/-- `Client.doRequest`: the loop runs attempts `0..maxRetries` inclusive. -/
def doRequest (cfg : RetryConfig) (script : Nat → AttemptOutcome) : DoTrace :=
  doRequestAux cfg script 0 none (cfg.maxRetries + 1)

/-- Whether an attempt outcome makes `doRequest`'s loop continue (transport
failure, unreadable body, or a retryable status). -/
def isTransientOutcome (cfg : RetryConfig) : AttemptOutcome → Bool
  | .transportFail _ => true
  | .readFail _ => true
  | .resp status _ => isRetryableStatus cfg status

/-- The transient error `doRequest` records for a continuing outcome. -/
def outcomeTransientErr : AttemptOutcome → TransientErr
  | .transportFail m => .transport m
  | .readFail m => .readBody m
  | .resp status body => .httpStatus status body.raw

/-- `GitHubUserResponse` in client.go. -/
structure GitHubUserResponse where
  id : Int
  login : String
deriving DecidableEq

/-- Body of a GitHub API response: raw text plus the result of unmarshalling
it as a `GitHubUserResponse` (`none` = parse failure). -/
structure GHBody where
  raw : String
  userDoc : Option GitHubUserResponse
deriving DecidableEq

/-- Outcome of one attempt against the GitHub identity service. -/
inductive GHOutcome where
  | transportFail (msg : String)
  | readFail (msg : String)
  | resp (status : Nat) (body : GHBody)
deriving DecidableEq

/-- A transient error recorded in `lastErr` inside `GetGitUserID`'s loop. -/
inductive GHTransient where
  | transport (msg : String)
  | readBody (msg : String)
  | httpStatus (status : Nat)
deriving DecidableEq

/-- Errors returned by `GetGitUserID`: not-found naming the handle, a
non-retryable API error, a parse failure, or retry exhaustion. -/
inductive GHErr where
  | notFound (githubID : String)
  | apiError (status : Nat)
  | parseFail
  | exhausted (maxRetries : Nat) (last : Option GHTransient)
deriving DecidableEq

/-- Trace of one `GetGitUserID` call. -/
structure GHTrace where
  result : Except GHErr String
  sleeps : List Nat
  attempts : Nat
deriving DecidableEq

/-- The attempt loop of `Client.GetGitUserID`.  Branch order as in the source:
the `status == 404` check comes first (fails immediately naming the handle,
before the retryable check), then the retryable check (continue), then
`>= 400` (immediate API error), then the body is parsed: a parse failure is an
immediate error, otherwise the numeric id is returned formatted as a string. -/
def getGitUserIDAux (cfg : RetryConfig) (githubID : String) (script : Nat → GHOutcome)
    (attempt : Nat) (lastErr : Option GHTransient) : Nat → GHTrace
  | 0 => { result := .error (.exhausted cfg.maxRetries lastErr), sleeps := [], attempts := 0 }
  | fuel + 1 =>
    let thisSleeps := if attempt > 0 then [calculateBackoff cfg (attempt - 1)] else []
    match script attempt with
    | .transportFail m =>
      let t := getGitUserIDAux cfg githubID script (attempt + 1) (some (.transport m)) fuel
      { result := t.result, sleeps := thisSleeps ++ t.sleeps, attempts := t.attempts + 1 }
    | .readFail m =>
      let t := getGitUserIDAux cfg githubID script (attempt + 1) (some (.readBody m)) fuel
      { result := t.result, sleeps := thisSleeps ++ t.sleeps, attempts := t.attempts + 1 }
    | .resp status body =>
      if status = 404 then
        { result := .error (.notFound githubID), sleeps := thisSleeps, attempts := 1 }
      else if isRetryableStatus cfg status then
        let t := getGitUserIDAux cfg githubID script (attempt + 1)
          (some (.httpStatus status)) fuel
        { result := t.result, sleeps := thisSleeps ++ t.sleeps, attempts := t.attempts + 1 }
      else if 400 ≤ status then
        { result := .error (.apiError status), sleeps := thisSleeps, attempts := 1 }
      else
        match body.userDoc with
        | none => { result := .error .parseFail, sleeps := thisSleeps, attempts := 1 }
        | some u => { result := .ok (toString u.id), sleeps := thisSleeps, attempts := 1 }

/-- `Client.GetGitUserID`: the loop runs attempts `0..maxRetries` inclusive. -/
def GetGitUserID (cfg : RetryConfig) (githubID : String)
    (script : Nat → GHOutcome) : GHTrace :=
  getGitUserIDAux cfg githubID script 0 none (cfg.maxRetries + 1)

/-- Whether a GitHub attempt outcome makes `GetGitUserID`'s loop continue:
transport failure, unreadable body, or a retryable status other than 404
(the 404 check precedes the retryable check). -/
def isGHTransientOutcome (cfg : RetryConfig) : GHOutcome → Bool
  | .transportFail _ => true
  | .readFail _ => true
  | .resp status _ => !(status == 404) && isRetryableStatus cfg status

/-- The transient error `GetGitUserID` records for a continuing outcome. -/
def ghOutcomeTransientErr : GHOutcome → GHTransient
  | .transportFail m => .transport m
  | .readFail m => .readBody m
  | .resp status _ => .httpStatus status

/-- The mutable state of a `Client`: the single-entry seats cache. -/
structure ClientState where
  seatsCache : Option SeatsResponse
deriving DecidableEq

/-- Errors returned by the seat operations of the client. -/
inductive ClientErr where
  | req (e : ReqErr)
  | unmarshal
  | assignFailed
  | unassignFailed
deriving DecidableEq

/-- `Client.GetSeats`: return the cached snapshot if present (no network
call); otherwise perform the roster fetch (`fetch` is the outcome of
`doRequest GET /seats/`), parse it, and store the snapshot on success.  The
third component counts upstream fetches performed (0 or 1). -/
def GetSeats (st : ClientState) (fetch : Except ReqErr RespBody) :
    Except ClientErr SeatsResponse × ClientState × Nat :=
  match st.seatsCache with
  | some cached => (.ok cached, st, 0)
  | none =>
    match fetch with
    | .error e => (.error (.req e), st, 1)
    | .ok body =>
      match body.seatsDoc with
      | none => (.error .unmarshal, st, 1)
      | some seats => (.ok seats, { seatsCache := some seats }, 1)

/-- `Client.InvalidateSeatsCache`: clear the cache; performs no fetch. -/
def InvalidateSeatsCache (_st : ClientState) : ClientState :=
  { seatsCache := none }

/-- `Client.AssignSeat`: `post` is the outcome of `doRequest POST
/seats/assign`.  A request error propagates; an unparsable body is an
unmarshal error; `success:false` is the distinct assignment-failed error;
only on `success:true` is the cache invalidated. -/
def AssignSeat (st : ClientState) (post : Except ReqErr RespBody) :
    Except ClientErr Unit × ClientState :=
  match post with
  | .error e => (.error (.req e), st)
  | .ok body =>
    match body.successDoc with
    | none => (.error .unmarshal, st)
    | some success =>
      if success then (.ok (), InvalidateSeatsCache st)
      else (.error .assignFailed, st)

/-- `Client.UnassignSeat`: as `AssignSeat`, for `POST /seats/unassign`. -/
def UnassignSeat (st : ClientState) (post : Except ReqErr RespBody) :
    Except ClientErr Unit × ClientState :=
  match post with
  | .error e => (.error (.req e), st)
  | .ok body =>
    match body.successDoc with
    | none => (.error .unmarshal, st)
    | some success =>
      if success then (.ok (), InvalidateSeatsCache st)
      else (.error .unassignFailed, st)

/-- `Client.HasSeat`: fetch the roster via `GetSeats`, then linear scan for a
user with the given id and `seat_assigned=true`; absence is `false`, never an
error. -/
def HasSeat (st : ClientState) (fetch : Except ReqErr RespBody) (gitUserID : String) :
    Except ClientErr Bool × ClientState × Nat :=
  match GetSeats st fetch with
  | (.error e, st', n) => (.error e, st', n)
  | (.ok seats, st', n) =>
    (.ok (seats.users.any (fun u => u.gitUserID == gitUserID && u.seatAssigned)), st', n)

/-- Environment of one `SeatsResource.Create` call: the outcome of resolving
the handle, of the roster fetch (used on cache miss), and of the assign POST. -/
structure CreateEnv where
  resolve : Except GHErr String
  seatsFetch : Except ReqErr RespBody
  assignPost : Except ReqErr RespBody
deriving DecidableEq

/-- Outcome of `SeatsResource.Create`: a diagnostic on the resolve, seat-check
or assign error paths, or success storing `id` and `git_user_id`. -/
inductive CreateOutcome where
  | errResolve (githubID : String) (e : GHErr)
  | errCheck (githubID : String) (e : ClientErr)
  | errAssign (githubID gitUserID : String) (e : ClientErr)
  | success (id gitUserID : String)
deriving DecidableEq

/-- Trace of one `SeatsResource.Create` call: outcome, final client state, and
the number of assign calls issued. -/
structure CreateTrace where
  outcome : CreateOutcome
  state : ClientState
  assignCalls : Nat
deriving DecidableEq

/-- `SeatsResource.Create`: resolve the handle to `gitUserID`; check
`HasSeat`; if already assigned, skip the assign call (log only) and store the
state; else call `AssignSeat` once.  On either success path the stored `id`
and `git_user_id` both equal the resolved id. -/
def SeatsCreate (st : ClientState) (githubID : String) (env : CreateEnv) : CreateTrace :=
  match env.resolve with
  | .error e => { outcome := .errResolve githubID e, state := st, assignCalls := 0 }
  | .ok gitUserID =>
    match HasSeat st env.seatsFetch gitUserID with
    | (.error e, st', _) => { outcome := .errCheck githubID e, state := st', assignCalls := 0 }
    | (.ok hasSeat, st', _) =>
      if hasSeat then
        { outcome := .success gitUserID gitUserID, state := st', assignCalls := 0 }
      else
        match AssignSeat st' env.assignPost with
        | (.error e, st2) =>
          { outcome := .errAssign githubID gitUserID e, state := st2, assignCalls := 1 }
        | (.ok _, st2) =>
          { outcome := .success gitUserID gitUserID, state := st2, assignCalls := 1 }

/-- Outcome of `SeatsResource.Read`: an error diagnostic, removal from state
(`RemoveResource`), or the unchanged data kept in state. -/
inductive ReadOutcome where
  | errRead (gitUserID : String) (e : ClientErr)
  | removed (gitUserID : String)
  | kept (gitUserID : String)
deriving DecidableEq

/-- `SeatsResource.Read`: check `HasSeat` for the stored id; an error is a
diagnostic; `false` removes the resource from state; `true` re-sets the same
data unchanged. -/
def SeatsRead (st : ClientState) (gitUserID : String)
    (fetch : Except ReqErr RespBody) : ReadOutcome × ClientState :=
  match HasSeat st fetch gitUserID with
  | (.error e, st', _) => (.errRead gitUserID e, st')
  | (.ok hasSeat, st', _) =>
    if hasSeat then (.kept gitUserID, st') else (.removed gitUserID, st')

/-- Environment of one `SeatsResource.Delete` call. -/
structure DeleteEnv where
  seatsFetch : Except ReqErr RespBody
  unassignPost : Except ReqErr RespBody
deriving DecidableEq

/-- Outcome of `SeatsResource.Delete`. -/
inductive DeleteOutcome where
  | errCheck (gitUserID : String) (e : ClientErr)
  | errUnassign (gitUserID : String) (e : ClientErr)
  | success (gitUserID : String)
deriving DecidableEq

/-- Trace of one `SeatsResource.Delete` call. -/
structure DeleteTrace where
  outcome : DeleteOutcome
  state : ClientState
  unassignCalls : Nat
deriving DecidableEq

/-- `SeatsResource.Delete`: check `HasSeat` for the stored id; if not
assigned, skip the unassign call (log only) and succeed; else call
`UnassignSeat` once. -/
def SeatsDelete (st : ClientState) (gitUserID : String) (env : DeleteEnv) : DeleteTrace :=
  match HasSeat st env.seatsFetch gitUserID with
  | (.error e, st', _) => { outcome := .errCheck gitUserID e, state := st', unassignCalls := 0 }
  | (.ok hasSeat, st', _) =>
    if hasSeat then
      match UnassignSeat st' env.unassignPost with
      | (.error e, st2) =>
        { outcome := .errUnassign gitUserID e, state := st2, unassignCalls := 1 }
      | (.ok _, st2) =>
        { outcome := .success gitUserID, state := st2, unassignCalls := 1 }
    else
      { outcome := .success gitUserID, state := st', unassignCalls := 0 }

/-- The value of `lastErr` after a run of consecutive transient attempts
starting at `attempt`, seeded with `lastErr`. -/
def lastErrAfter (script : Nat → AttemptOutcome) :
    Nat → Nat → Option TransientErr → Option TransientErr
  | _, 0, lastErr => lastErr
  | attempt, f + 1, _ =>
    lastErrAfter script (attempt + 1) f (some (outcomeTransientErr (script attempt)))

/-- The value of `lastErr` after a run of consecutive transient attempts of
the identity-resolver loop. -/
def ghLastErrAfter (script : Nat → GHOutcome) :
    Nat → Nat → Option GHTransient → Option GHTransient
  | _, 0, lastErr => lastErr
  | attempt, f + 1, _ =>
    ghLastErrAfter script (attempt + 1) f (some (ghOutcomeTransientErr (script attempt)))

/-- A plain upstream body with no parseable documents, as returned with a 503. -/
def bodyW : RespBody :=
  { raw := "service unavailable", errorDoc := none, successDoc := none, seatsDoc := none }

/-- A successful payload body. -/
def okBodyW : RespBody :=
  { raw := "payload", errorDoc := none, successDoc := none, seatsDoc := none }

/-- A structured error body as returned with a 400. -/
def errBodyW : RespBody :=
  { raw := "raw error text", errorDoc := some { errors := ["bad request"] },
    successDoc := none, seatsDoc := none }

/-- Script: every attempt answers 503. -/
def script503W : Nat → AttemptOutcome := fun _ => .resp 503 bodyW

/-- Script: `maxRetries` 503s, then a 200. -/
def scriptRecoverW : Nat → AttemptOutcome := fun i =>
  if i < defaultRetryConfig.maxRetries then .resp 503 bodyW else .resp 200 okBodyW

/-- Script: a 400 with a structured error body on every attempt. -/
def script400W : Nat → AttemptOutcome := fun _ => .resp 400 errBodyW

/-- A GitHub body that does not parse as a user document. -/
def ghBodyW : GHBody := { raw := "not found", userDoc := none }

/-- A retry configuration that (perversely) also lists 404 as retryable; the
identity resolver must still fail a 404 immediately. -/
def cfg404W : RetryConfig :=
  { maxRetries := 3
    baseDelay := 1000000000
    maxDelay := 30000000000
    retryableStatusCodes := [404, 429, 500, 502, 503, 504] }

/-- Script: the identity service answers 404 on every attempt. -/
def ghScript404W : Nat → GHOutcome := fun _ => .resp 404 ghBodyW

/-- Script: the identity service answers 503 on every attempt. -/
def ghScript503W : Nat → GHOutcome := fun _ => .resp 503 ghBodyW

/-- A concrete roster: user "42" holds a seat. -/
def rosterW : SeatsResponse := { users := [{ gitUserID := "42", seatAssigned := true }] }

/-- A body carrying `rosterW` as its parsed roster. -/
def rosterBodyW : RespBody :=
  { raw := "roster", errorDoc := none, successDoc := none, seatsDoc := some rosterW }

/-- A mutation response body with `success:true`. -/
def successBodyW : RespBody :=
  { raw := "ok", errorDoc := none, successDoc := some true, seatsDoc := none }

/-- A mutation response body with `success:false`. -/
def failBodyW : RespBody :=
  { raw := "refused", errorDoc := none, successDoc := some false, seatsDoc := none }

/-- The empty client state: cold cache. -/
def stEmptyW : ClientState := { seatsCache := none }

/-- Concrete handle and resolved ids for the reconciler instances. -/
def handleW : String := "octocat"

/-- A resolved id that is assigned in `rosterW`. -/
def gidW : String := "42"

/-- A resolved id that is absent from `rosterW`. -/
def gid2W : String := "99"

/-- Create environment resolving to the already-assigned id "42". -/
def createEnvW : CreateEnv :=
  { resolve := .ok gidW, seatsFetch := .ok rosterBodyW, assignPost := .ok successBodyW }

/-- Create environment resolving to the unassigned id "99". -/
def createEnv2W : CreateEnv :=
  { resolve := .ok gid2W, seatsFetch := .ok rosterBodyW, assignPost := .ok successBodyW }

/-- Delete environment over `rosterW`. -/
def delEnvW : DeleteEnv :=
  { seatsFetch := .ok rosterBodyW, unassignPost := .ok successBodyW }

theorem lastErrAfter_succ (script : Nat → AttemptOutcome) :
    ∀ (f attempt : Nat) (lastErr : Option TransientErr),
    lastErrAfter script attempt (f + 1) lastErr =
      some (outcomeTransientErr (script (attempt + f))) := by
  intro f
  induction f with
  | zero => intro attempt lastErr; simp [lastErrAfter]
  | succ f ih =>
    intro attempt lastErr
    rw [lastErrAfter, ih]
    have harith : attempt + 1 + f = attempt + (f + 1) := by omega
    rw [harith]

theorem doRequestAux_exhaust (cfg : RetryConfig) (script : Nat → AttemptOutcome) :
    ∀ (fuel attempt : Nat) (lastErr : Option TransientErr),
    (∀ i, i < fuel → isTransientOutcome cfg (script (attempt + i)) = true) →
    (doRequestAux cfg script attempt lastErr fuel).result =
      .error (.exhausted cfg.maxRetries (lastErrAfter script attempt fuel lastErr)) ∧
    (doRequestAux cfg script attempt lastErr fuel).attempts = fuel := by
  intro fuel
  induction fuel with
  | zero => intro attempt lastErr _; simp [doRequestAux, lastErrAfter]
  | succ f ih =>
    intro attempt lastErr h
    have h0 : isTransientOutcome cfg (script attempt) = true := by
      have := h 0 (Nat.succ_pos f); simpa using this
    have hrest : ∀ i, i < f → isTransientOutcome cfg (script (attempt + 1 + i)) = true := by
      intro i hi
      have := h (i + 1) (by omega)
      have harith : attempt + (i + 1) = attempt + 1 + i := by omega
      rwa [harith] at this
    cases hs : script attempt with
    | transportFail m =>
      have ht := ih (attempt + 1) (some (.transport m)) hrest
      simp [doRequestAux, hs, lastErrAfter, outcomeTransientErr, ht.1, ht.2]
    | readFail m =>
      have ht := ih (attempt + 1) (some (.readBody m)) hrest
      simp [doRequestAux, hs, lastErrAfter, outcomeTransientErr, ht.1, ht.2]
    | resp status body =>
      have hr : isRetryableStatus cfg status = true := by
        have := h0; rw [hs] at this; simpa [isTransientOutcome] using this
      have ht := ih (attempt + 1) (some (.httpStatus status body.raw)) hrest
      simp [doRequestAux, hs, hr, lastErrAfter, outcomeTransientErr, ht.1, ht.2]

theorem doRequestAux_terminal (cfg : RetryConfig) (script : Nat → AttemptOutcome)
    (s : Nat) (b : RespBody) (hr : isRetryableStatus cfg s = false) :
    ∀ (a fuel attempt : Nat) (lastErr : Option TransientErr),
    a < fuel →
    (∀ i, i < a → isTransientOutcome cfg (script (attempt + i)) = true) →
    script (attempt + a) = .resp s b →
    (doRequestAux cfg script attempt lastErr fuel).attempts = a + 1 ∧
    (doRequestAux cfg script attempt lastErr fuel).result =
      (if 400 ≤ s then .error (.apiError s (renderAPIError s b)) else .ok b) := by
  intro a
  induction a with
  | zero =>
    intro fuel attempt lastErr hlt _ hs
    match fuel, hlt with
    | f + 1, _ =>
      rw [Nat.add_zero] at hs
      by_cases h4 : 400 ≤ s
      · simp [doRequestAux, hs, hr, h4]
      · simp [doRequestAux, hs, hr, h4]
  | succ a ih =>
    intro fuel attempt lastErr hlt hpre hs
    match fuel, hlt with
    | f + 1, hlt =>
      have h0 : isTransientOutcome cfg (script attempt) = true := by
        have := hpre 0 (Nat.succ_pos a); simpa using this
      have hrest : ∀ i, i < a → isTransientOutcome cfg (script (attempt + 1 + i)) = true := by
        intro i hi
        have := hpre (i + 1) (by omega)
        have harith : attempt + (i + 1) = attempt + 1 + i := by omega
        rwa [harith] at this
      have hs' : script (attempt + 1 + a) = .resp s b := by
        have harith : attempt + 1 + a = attempt + (a + 1) := by omega
        rwa [harith]
      cases hsc : script attempt with
      | transportFail m =>
        have ht := ih f (attempt + 1) (some (.transport m)) (by omega) hrest hs'
        simp [doRequestAux, hsc, ht.1, ht.2]
      | readFail m =>
        have ht := ih f (attempt + 1) (some (.readBody m)) (by omega) hrest hs'
        simp [doRequestAux, hsc, ht.1, ht.2]
      | resp status body =>
        have hrs : isRetryableStatus cfg status = true := by
          have := h0; rw [hsc] at this; simpa [isTransientOutcome] using this
        have ht := ih f (attempt + 1) (some (.httpStatus status body.raw)) (by omega) hrest hs'
        simp [doRequestAux, hsc, hrs, ht.1, ht.2]

theorem doRequestAux_not_exhausted (cfg : RetryConfig) (script : Nat → AttemptOutcome) :
    ∀ (fuel attempt : Nat) (lastErr : Option TransientErr),
    (∃ i, i < fuel ∧ isTransientOutcome cfg (script (attempt + i)) = false) →
    ∀ (m : Nat) (e : Option TransientErr),
    (doRequestAux cfg script attempt lastErr fuel).result ≠ .error (.exhausted m e) := by
  intro fuel
  induction fuel with
  | zero => intro attempt lastErr h; obtain ⟨i, hi, _⟩ := h; omega
  | succ f ih =>
    intro attempt lastErr h m e
    obtain ⟨i, hi, hni⟩ := h
    cases hsc : script attempt with
    | transportFail msg =>
      have hi0 : i ≠ 0 := by
        intro h0; rw [h0, Nat.add_zero, hsc] at hni; simp [isTransientOutcome] at hni
      obtain ⟨j, rfl⟩ := Nat.exists_eq_succ_of_ne_zero hi0
      have hj : isTransientOutcome cfg (script (attempt + 1 + j)) = false := by
        have harith : attempt + 1 + j = attempt + (j + 1) := by omega
        rwa [harith]
      have := ih (attempt + 1) (some (.transport msg)) ⟨j, by omega, hj⟩ m e
      simpa [doRequestAux, hsc] using this
    | readFail msg =>
      have hi0 : i ≠ 0 := by
        intro h0; rw [h0, Nat.add_zero, hsc] at hni; simp [isTransientOutcome] at hni
      obtain ⟨j, rfl⟩ := Nat.exists_eq_succ_of_ne_zero hi0
      have hj : isTransientOutcome cfg (script (attempt + 1 + j)) = false := by
        have harith : attempt + 1 + j = attempt + (j + 1) := by omega
        rwa [harith]
      have := ih (attempt + 1) (some (.readBody msg)) ⟨j, by omega, hj⟩ m e
      simpa [doRequestAux, hsc] using this
    | resp status body =>
      cases hrs : isRetryableStatus cfg status with
      | true =>
        have hi0 : i ≠ 0 := by
          intro h0
          rw [h0, Nat.add_zero, hsc] at hni
          simp [isTransientOutcome, hrs] at hni
        obtain ⟨j, rfl⟩ := Nat.exists_eq_succ_of_ne_zero hi0
        have hj : isTransientOutcome cfg (script (attempt + 1 + j)) = false := by
          have harith : attempt + 1 + j = attempt + (j + 1) := by omega
          rwa [harith]
        have := ih (attempt + 1) (some (.httpStatus status body.raw)) ⟨j, by omega, hj⟩ m e
        simpa [doRequestAux, hsc, hrs] using this
      | false =>
        by_cases h4 : 400 ≤ status
        · simp [doRequestAux, hsc, hrs, h4]
        · simp [doRequestAux, hsc, hrs, h4]

theorem doRequestAux_sleeps (cfg : RetryConfig) (script : Nat → AttemptOutcome) :
    ∀ (fuel attempt : Nat) (lastErr : Option TransientErr), 1 ≤ attempt →
    (doRequestAux cfg script attempt lastErr fuel).sleeps =
      (List.range' (attempt - 1)
        (doRequestAux cfg script attempt lastErr fuel).attempts).map
        (calculateBackoff cfg) := by
  intro fuel
  induction fuel with
  | zero => intro attempt lastErr _; simp [doRequestAux]
  | succ f ih =>
    intro attempt lastErr hat
    have hpos : attempt > 0 := hat
    have hsub : attempt - 1 + 1 = attempt := by omega
    cases hsc : script attempt with
    | transportFail m =>
      have ht := ih (attempt + 1) (some (.transport m)) (by omega)
      simp only [doRequestAux, hsc, hpos, if_pos, List.singleton_append]
      rw [ht, List.range'_succ, hsub]
      simp
    | readFail m =>
      have ht := ih (attempt + 1) (some (.readBody m)) (by omega)
      simp only [doRequestAux, hsc, hpos, if_pos, List.singleton_append]
      rw [ht, List.range'_succ, hsub]
      simp
    | resp status body =>
      cases hrs : isRetryableStatus cfg status with
      | true =>
        have ht := ih (attempt + 1) (some (.httpStatus status body.raw)) (by omega)
        simp only [doRequestAux, hsc, hrs, hpos, if_pos, if_true, List.singleton_append]
        rw [ht, List.range'_succ, hsub]
        simp
      | false =>
        by_cases h4 : 400 ≤ status
        · simp [doRequestAux, hsc, hrs, h4, hpos, List.range'_one]
        · simp [doRequestAux, hsc, hrs, h4, hpos, List.range'_one]

theorem doRequest_sleeps (cfg : RetryConfig) (script : Nat → AttemptOutcome) :
    (doRequest cfg script).sleeps =
      (List.range ((doRequest cfg script).attempts - 1)).map (calculateBackoff cfg) := by
  rw [doRequest]
  cases hsc : script 0 with
  | transportFail m =>
    have ht := doRequestAux_sleeps cfg script cfg.maxRetries 1 (some (.transport m)) (by omega)
    simp only [doRequestAux, hsc, List.range_eq_range']
    simpa using ht
  | readFail m =>
    have ht := doRequestAux_sleeps cfg script cfg.maxRetries 1 (some (.readBody m)) (by omega)
    simp only [doRequestAux, hsc, List.range_eq_range']
    simpa using ht
  | resp status body =>
    cases hrs : isRetryableStatus cfg status with
    | true =>
      have ht := doRequestAux_sleeps cfg script cfg.maxRetries 1
        (some (.httpStatus status body.raw)) (by omega)
      simp only [doRequestAux, hsc, hrs, List.range_eq_range']
      simpa using ht
    | false =>
      by_cases h4 : 400 ≤ status
      · simp [doRequestAux, hsc, hrs, h4]
      · simp [doRequestAux, hsc, hrs, h4]

theorem doRequest_exhaust (cfg : RetryConfig) (script : Nat → AttemptOutcome)
    (h : ∀ i, i ≤ cfg.maxRetries → isTransientOutcome cfg (script i) = true) :
    (doRequest cfg script).result =
      .error (.exhausted cfg.maxRetries
        (some (outcomeTransientErr (script cfg.maxRetries)))) ∧
    (doRequest cfg script).attempts = cfg.maxRetries + 1 := by
  have hx := doRequestAux_exhaust cfg script (cfg.maxRetries + 1) 0 none
    (by intro i hi; simpa using h i (by omega))
  rw [doRequest]
  rw [lastErrAfter_succ] at hx
  simpa using hx

theorem doRequest_terminal (cfg : RetryConfig) (script : Nat → AttemptOutcome)
    (a s : Nat) (b : RespBody)
    (ha : a ≤ cfg.maxRetries)
    (hpre : ∀ i, i < a → isTransientOutcome cfg (script i) = true)
    (hs : script a = .resp s b)
    (hr : isRetryableStatus cfg s = false) :
    (doRequest cfg script).attempts = a + 1 ∧
    (doRequest cfg script).result =
      (if 400 ≤ s then .error (.apiError s (renderAPIError s b)) else .ok b) := by
  rw [doRequest]
  exact doRequestAux_terminal cfg script s b hr a (cfg.maxRetries + 1) 0 none
    (by omega) (by intro i hi; simpa using hpre i hi) (by simpa using hs)

theorem ghLastErrAfter_succ (script : Nat → GHOutcome) :
    ∀ (f attempt : Nat) (lastErr : Option GHTransient),
    ghLastErrAfter script attempt (f + 1) lastErr =
      some (ghOutcomeTransientErr (script (attempt + f))) := by
  intro f
  induction f with
  | zero => intro attempt lastErr; simp [ghLastErrAfter]
  | succ f ih =>
    intro attempt lastErr
    rw [ghLastErrAfter, ih]
    have harith : attempt + 1 + f = attempt + (f + 1) := by omega
    rw [harith]

theorem getGitUserIDAux_exhaust (cfg : RetryConfig) (githubID : String)
    (script : Nat → GHOutcome) :
    ∀ (fuel attempt : Nat) (lastErr : Option GHTransient),
    (∀ i, i < fuel → isGHTransientOutcome cfg (script (attempt + i)) = true) →
    (getGitUserIDAux cfg githubID script attempt lastErr fuel).result =
      .error (.exhausted cfg.maxRetries (ghLastErrAfter script attempt fuel lastErr)) ∧
    (getGitUserIDAux cfg githubID script attempt lastErr fuel).attempts = fuel := by
  intro fuel
  induction fuel with
  | zero => intro attempt lastErr _; simp [getGitUserIDAux, ghLastErrAfter]
  | succ f ih =>
    intro attempt lastErr h
    have h0 : isGHTransientOutcome cfg (script attempt) = true := by
      have := h 0 (Nat.succ_pos f); simpa using this
    have hrest : ∀ i, i < f → isGHTransientOutcome cfg (script (attempt + 1 + i)) = true := by
      intro i hi
      have := h (i + 1) (by omega)
      have harith : attempt + (i + 1) = attempt + 1 + i := by omega
      rwa [harith] at this
    cases hs : script attempt with
    | transportFail m =>
      have ht := ih (attempt + 1) (some (.transport m)) hrest
      simp [getGitUserIDAux, hs, ghLastErrAfter, ghOutcomeTransientErr, ht.1, ht.2]
    | readFail m =>
      have ht := ih (attempt + 1) (some (.readBody m)) hrest
      simp [getGitUserIDAux, hs, ghLastErrAfter, ghOutcomeTransientErr, ht.1, ht.2]
    | resp status body =>
      have hpair : ¬(status = 404) ∧ isRetryableStatus cfg status = true := by
        have := h0
        rw [hs] at this
        simp [isGHTransientOutcome] at this
        exact ⟨by simpa using this.1, this.2⟩
      have ht := ih (attempt + 1) (some (.httpStatus status)) hrest
      simp [getGitUserIDAux, hs, hpair.1, hpair.2, ghLastErrAfter,
        ghOutcomeTransientErr, ht.1, ht.2]

theorem getGitUserIDAux_notFound (cfg : RetryConfig) (githubID : String)
    (script : Nat → GHOutcome) (b : GHBody) :
    ∀ (a fuel attempt : Nat) (lastErr : Option GHTransient),
    a < fuel →
    (∀ i, i < a → isGHTransientOutcome cfg (script (attempt + i)) = true) →
    script (attempt + a) = .resp 404 b →
    (getGitUserIDAux cfg githubID script attempt lastErr fuel).attempts = a + 1 ∧
    (getGitUserIDAux cfg githubID script attempt lastErr fuel).result =
      .error (.notFound githubID) := by
  intro a
  induction a with
  | zero =>
    intro fuel attempt lastErr hlt _ hs
    match fuel, hlt with
    | f + 1, _ =>
      rw [Nat.add_zero] at hs
      simp [getGitUserIDAux, hs]
  | succ a ih =>
    intro fuel attempt lastErr hlt hpre hs
    match fuel, hlt with
    | f + 1, hlt =>
      have h0 : isGHTransientOutcome cfg (script attempt) = true := by
        have := hpre 0 (Nat.succ_pos a); simpa using this
      have hrest : ∀ i, i < a → isGHTransientOutcome cfg (script (attempt + 1 + i)) = true := by
        intro i hi
        have := hpre (i + 1) (by omega)
        have harith : attempt + (i + 1) = attempt + 1 + i := by omega
        rwa [harith] at this
      have hs' : script (attempt + 1 + a) = .resp 404 b := by
        have harith : attempt + 1 + a = attempt + (a + 1) := by omega
        rwa [harith]
      cases hsc : script attempt with
      | transportFail m =>
        have ht := ih f (attempt + 1) (some (.transport m)) (by omega) hrest hs'
        simp [getGitUserIDAux, hsc, ht.1, ht.2]
      | readFail m =>
        have ht := ih f (attempt + 1) (some (.readBody m)) (by omega) hrest hs'
        simp [getGitUserIDAux, hsc, ht.1, ht.2]
      | resp status body =>
        have hpair : ¬(status = 404) ∧ isRetryableStatus cfg status = true := by
          have := h0
          rw [hsc] at this
          simp [isGHTransientOutcome] at this
          exact ⟨by simpa using this.1, this.2⟩
        have ht := ih f (attempt + 1) (some (.httpStatus status)) (by omega) hrest hs'
        simp [getGitUserIDAux, hsc, hpair.1, hpair.2, ht.1, ht.2]

theorem getGitUserID_notFound (cfg : RetryConfig) (githubID : String)
    (script : Nat → GHOutcome) (a : Nat) (b : GHBody)
    (ha : a ≤ cfg.maxRetries)
    (hpre : ∀ i, i < a → isGHTransientOutcome cfg (script i) = true)
    (hs : script a = .resp 404 b) :
    (GetGitUserID cfg githubID script).attempts = a + 1 ∧
    (GetGitUserID cfg githubID script).result = .error (.notFound githubID) := by
  rw [GetGitUserID]
  exact getGitUserIDAux_notFound cfg githubID script b a (cfg.maxRetries + 1) 0 none
    (by omega) (by intro i hi; simpa using hpre i hi) (by simpa using hs)

theorem getGitUserID_exhaust (cfg : RetryConfig) (githubID : String)
    (script : Nat → GHOutcome)
    (h : ∀ i, i ≤ cfg.maxRetries → isGHTransientOutcome cfg (script i) = true) :
    (GetGitUserID cfg githubID script).result =
      .error (.exhausted cfg.maxRetries
        (some (ghOutcomeTransientErr (script cfg.maxRetries)))) ∧
    (GetGitUserID cfg githubID script).attempts = cfg.maxRetries + 1 := by
  have hx := getGitUserIDAux_exhaust cfg githubID script (cfg.maxRetries + 1) 0 none
    (by intro i hi; simpa using h i (by omega))
  rw [GetGitUserID]
  rw [ghLastErrAfter_succ] at hx
  simpa using hx

/-- C3: the resilient request executor fails with the last recorded transient
error wrapped in the exhausted-retries marker iff all `maxRetries + 1` attempts
end in a transient failure; `maxRetries + 1` consecutive 503s yield that
failure, while `maxRetries` 503s followed by one status-<400 response yield
success with the final response's payload and no error. -/
theorem doRequest_retry_exhaustion (cfg : RetryConfig) (script : Nat → AttemptOutcome)
    (b okb : RespBody) (s : Nat)
    (h503 : isRetryableStatus cfg 503 = true)
    (hs1 : isRetryableStatus cfg s = false)
    (hs2 : s < 400) :
    ((∃ e, (doRequest cfg script).result = .error (.exhausted cfg.maxRetries e)) ↔
      ∀ i, i ≤ cfg.maxRetries → isTransientOutcome cfg (script i) = true) ∧
    ((∀ i, i ≤ cfg.maxRetries → isTransientOutcome cfg (script i) = true) →
      (doRequest cfg script).result =
        .error (.exhausted cfg.maxRetries
          (some (outcomeTransientErr (script cfg.maxRetries))))) ∧
    (doRequest cfg (fun _ => .resp 503 b)).result =
      .error (.exhausted cfg.maxRetries (some (.httpStatus 503 b.raw))) ∧
    (doRequest cfg
      (fun i => if i < cfg.maxRetries then .resp 503 b else .resp s okb)).result =
      .ok okb := by
  refine ⟨⟨?_, ?_⟩, ?_, ?_, ?_⟩
  · intro hex
    by_contra hna
    push_neg at hna
    obtain ⟨i, hi, hni⟩ := hna
    obtain ⟨e, he⟩ := hex
    have hfalse : isTransientOutcome cfg (script i) = false := by
      cases h : isTransientOutcome cfg (script i) with
      | true => exact absurd h hni
      | false => rfl
    exact doRequestAux_not_exhausted cfg script (cfg.maxRetries + 1) 0 none
      ⟨i, by omega, by simpa using hfalse⟩ cfg.maxRetries e he
  · intro h
    exact ⟨_, (doRequest_exhaust cfg script h).1⟩
  · intro h
    exact (doRequest_exhaust cfg script h).1
  · have h := doRequest_exhaust cfg (fun _ => .resp 503 b)
      (by intro i _; simpa [isTransientOutcome] using h503)
    simpa [outcomeTransientErr] using h.1
  · have h := doRequest_terminal cfg
      (fun i => if i < cfg.maxRetries then .resp 503 b else .resp s okb)
      cfg.maxRetries s okb (le_refl _)
      (by intro i hi; simp [hi, isTransientOutcome, h503])
      (by simp) hs1
    rw [h.2]
    simp [Nat.not_le.mpr hs2]

/-- Witness for C3 at the default configuration: four 503s exhaust the three
retries; three 503s followed by a 200 succeed with the 200's payload. -/
theorem doRequest_retry_exhaustion_witness :
    (doRequest defaultRetryConfig (fun _ => .resp 503 bodyW)).result =
      .error (.exhausted defaultRetryConfig.maxRetries
        (some (.httpStatus 503 bodyW.raw))) ∧
    (doRequest defaultRetryConfig
      (fun i => if i < defaultRetryConfig.maxRetries
        then .resp 503 bodyW else .resp 200 okBodyW)).result = .ok okBodyW :=
  ⟨(doRequest_retry_exhaustion defaultRetryConfig script503W bodyW okBodyW 200
      (by decide) (by decide) (by decide)).2.2.1,
   (doRequest_retry_exhaustion defaultRetryConfig script503W bodyW okBodyW 200
      (by decide) (by decide) (by decide)).2.2.2⟩

/-- C4: a response whose status is ≥400 and not retryable makes the executor
fail on that very attempt: with the 400 on the first attempt, zero sleeps are
performed and exactly one attempt is made, regardless of `maxRetries`; in
general the loop stops right after the non-retryable attempt.  The surfaced
message carries the parsed error document's message when the body is a
structured error document, else the raw body, together with the status code. -/
theorem doRequest_nonretryable_shortcircuit (cfg : RetryConfig)
    (script script2 : Nat → AttemptOutcome) (s a : Nat) (b : RespBody)
    (h0 : script 0 = .resp s b)
    (hr : isRetryableStatus cfg s = false)
    (h4 : 400 ≤ s)
    (ha : a ≤ cfg.maxRetries)
    (hpre : ∀ i, i < a → isTransientOutcome cfg (script2 i) = true)
    (ha2 : script2 a = .resp s b) :
    (doRequest cfg script).result = .error (.apiError s (renderAPIError s b)) ∧
    (doRequest cfg script).sleeps = [] ∧
    (doRequest cfg script).attempts = 1 ∧
    ((doRequest cfg script2).attempts = a + 1 ∧
      (doRequest cfg script2).result = .error (.apiError s (renderAPIError s b))) ∧
    (∀ e, b.errorDoc = some e →
      renderAPIError s b = "API error (status " ++ toString s ++ "): " ++ e.errMsg) ∧
    (b.errorDoc = none →
      renderAPIError s b = "API error (status " ++ toString s ++ "): " ++ b.raw) := by
  have h1 := doRequest_terminal cfg script 0 s b (Nat.zero_le _)
    (by intro i hi; omega) (by simpa using h0) hr
  have h2 := doRequest_terminal cfg script2 a s b ha hpre ha2 hr
  refine ⟨?_, ?_, h1.1, ⟨h2.1, ?_⟩, ?_, ?_⟩
  · rw [h1.2]; simp [h4]
  · rw [doRequest_sleeps, h1.1]; simp
  · rw [h2.2]; simp [h4]
  · intro e he; simp [renderAPIError, he]
  · intro he; simp [renderAPIError, he]

/-- Witness for C4: one 400 with a structured error body under the default
configuration fails at once, sleeps zero times, and surfaces the parsed
message. -/
theorem doRequest_nonretryable_shortcircuit_witness :
    (doRequest defaultRetryConfig script400W).result =
      .error (.apiError 400 (renderAPIError 400 errBodyW)) ∧
    (doRequest defaultRetryConfig script400W).sleeps = [] ∧
    (doRequest defaultRetryConfig script400W).attempts = 1 :=
  ⟨(doRequest_nonretryable_shortcircuit defaultRetryConfig script400W script400W 400 0
      errBodyW (by decide) (by decide) (by decide) (by decide)
      (by intro i hi; omega) (by decide)).1,
   (doRequest_nonretryable_shortcircuit defaultRetryConfig script400W script400W 400 0
      errBodyW (by decide) (by decide) (by decide) (by decide)
      (by intro i hi; omega) (by decide)).2.1,
   (doRequest_nonretryable_shortcircuit defaultRetryConfig script400W script400W 400 0
      errBodyW (by decide) (by decide) (by decide) (by decide)
      (by intro i hi; omega) (by decide)).2.2.1⟩

/-- C5: a 404 from the identity service makes `GetGitUserID` fail immediately
with the not-found error naming the handle — the run stops right after the 404
attempt (with the 404 on the first attempt: one attempt, zero sleeps), and
this holds for every configuration, even one listing 404 as retryable, because
the 404 check precedes the retryable check — whereas an all-503 run is retried
up to the configured maximum and only then fails. -/
theorem getGitUserID_notfound_vs_transient (cfg : RetryConfig) (githubID : String)
    (script script2 : Nat → GHOutcome) (a : Nat) (b b2 : GHBody)
    (ha : a ≤ cfg.maxRetries)
    (hpre : ∀ i, i < a → isGHTransientOutcome cfg (script i) = true)
    (h404 : script a = .resp 404 b)
    (h503 : isRetryableStatus cfg 503 = true)
    (hs2 : ∀ i, script2 i = .resp 503 b2) :
    ((GetGitUserID cfg githubID script).result = .error (.notFound githubID) ∧
      (GetGitUserID cfg githubID script).attempts = a + 1) ∧
    (a = 0 → (GetGitUserID cfg githubID script).sleeps = []) ∧
    ((GetGitUserID cfg githubID script2).attempts = cfg.maxRetries + 1 ∧
      (GetGitUserID cfg githubID script2).result =
        .error (.exhausted cfg.maxRetries (some (.httpStatus 503)))) := by
  have h1 := getGitUserID_notFound cfg githubID script a b ha hpre h404
  have htr : ∀ i, i ≤ cfg.maxRetries → isGHTransientOutcome cfg (script2 i) = true := by
    intro i _
    rw [hs2 i]
    simp [isGHTransientOutcome, h503]
  have h2 := getGitUserID_exhaust cfg githubID script2 htr
  refine ⟨⟨h1.2, h1.1⟩, ?_, h2.2, ?_⟩
  · intro h0
    subst h0
    simp [GetGitUserID, getGitUserIDAux, h404]
  · rw [h2.1, hs2]
    rfl

/-- Witness for C5: 404 under a configuration that lists 404 as retryable
still fails in one attempt with no sleep; all-503 under the same
configuration exhausts all four attempts. -/
theorem getGitUserID_notfound_vs_transient_witness :
    ((GetGitUserID cfg404W handleW ghScript404W).result =
        .error (.notFound handleW) ∧
      (GetGitUserID cfg404W handleW ghScript404W).attempts = 0 + 1) ∧
    (GetGitUserID cfg404W handleW ghScript404W).sleeps = [] ∧
    ((GetGitUserID cfg404W handleW ghScript503W).attempts = cfg404W.maxRetries + 1 ∧
      (GetGitUserID cfg404W handleW ghScript503W).result =
        .error (.exhausted cfg404W.maxRetries (some (.httpStatus 503)))) :=
  ⟨(getGitUserID_notfound_vs_transient cfg404W handleW ghScript404W ghScript503W 0
      ghBodyW ghBodyW (by decide) (by intro i hi; omega) (by decide) (by decide)
      (fun _ => rfl)).1,
   (getGitUserID_notfound_vs_transient cfg404W handleW ghScript404W ghScript503W 0
      ghBodyW ghBodyW (by decide) (by intro i hi; omega) (by decide) (by decide)
      (fun _ => rfl)).2.1 rfl,
   (getGitUserID_notfound_vs_transient cfg404W handleW ghScript404W ghScript503W 0
      ghBodyW ghBodyW (by decide) (by intro i hi; omega) (by decide) (by decide)
      (fun _ => rfl)).2.2⟩

/-- C6: the backoff delay for attempt `a` is `baseDelay * 2^a` clamped to
`maxDelay`; with a sane configuration (`baseDelay ≤ maxDelay`) the delay of
attempt 0 is exactly `baseDelay`; and in the attempt loop no sleep precedes
the initial attempt while the nth retry sleeps exactly the backoff of `n-1`:
the sleep trace is the backoff schedule over `0 .. attempts-2`. -/
theorem backoff_schedule (cfg : RetryConfig) (a : Nat) (script : Nat → AttemptOutcome)
    (hbm : cfg.baseDelay ≤ cfg.maxDelay) :
    calculateBackoff cfg a = min (cfg.baseDelay * 2 ^ a) cfg.maxDelay ∧
    calculateBackoff cfg 0 = cfg.baseDelay ∧
    (doRequest cfg script).sleeps =
      (List.range ((doRequest cfg script).attempts - 1)).map (calculateBackoff cfg) := by
  refine ⟨?_, ?_, doRequest_sleeps cfg script⟩
  · have hdef : calculateBackoff cfg a =
        if cfg.baseDelay * 2 ^ a > cfg.maxDelay then cfg.maxDelay
        else cfg.baseDelay * 2 ^ a := rfl
    rw [hdef, Nat.min_def]
    rcases Nat.lt_or_ge cfg.maxDelay (cfg.baseDelay * 2 ^ a) with h | h
    · rw [if_pos h, if_neg (by omega)]
    · rw [if_neg (by omega), if_pos (by omega)]
  · have hdef : calculateBackoff cfg 0 =
        if cfg.baseDelay * 1 > cfg.maxDelay then cfg.maxDelay
        else cfg.baseDelay * 1 := rfl
    rw [hdef, if_neg (by omega), Nat.mul_one]

/-- Witness for C6 at the default configuration and an all-503 script: the
three sleeps performed are the backoffs of attempts 0, 1, 2. -/
theorem backoff_schedule_witness :
    calculateBackoff defaultRetryConfig 7 =
      min (defaultRetryConfig.baseDelay * 2 ^ 7) defaultRetryConfig.maxDelay ∧
    calculateBackoff defaultRetryConfig 0 = defaultRetryConfig.baseDelay ∧
    (doRequest defaultRetryConfig script503W).sleeps =
      (List.range ((doRequest defaultRetryConfig script503W).attempts - 1)).map
        (calculateBackoff defaultRetryConfig) :=
  backoff_schedule defaultRetryConfig 7 script503W (by decide)

theorem hasSeat_eq (st st' : ClientState) (fetch : Except ReqErr RespBody)
    (gid : String) (roster : SeatsResponse) (n : Nat)
    (hseats : GetSeats st fetch = (.ok roster, st', n)) :
    HasSeat st fetch gid =
      (.ok (roster.users.any (fun u => u.gitUserID == gid && u.seatAssigned)), st', n) := by
  simp [HasSeat, hseats]

theorem seatAny_iff (roster : SeatsResponse) (gid : String) :
    roster.users.any (fun u => u.gitUserID == gid && u.seatAssigned) = true ↔
      ∃ u ∈ roster.users, u.gitUserID = gid ∧ u.seatAssigned = true := by
  simp [List.any_eq_true, Bool.and_eq_true]

/-- C1: when the resolved id is already assigned in the roster the Create
operation issues zero assign calls and succeeds, storing the resolved id; when
the resolved id is not assigned it issues exactly one assign call; and on
every success path the stored id equals the resolved id. -/
theorem create_idempotent (st st' : ClientState) (githubID gid : String)
    (env : CreateEnv) (roster : SeatsResponse) (n : Nat)
    (hres : env.resolve = .ok gid)
    (hseats : GetSeats st env.seatsFetch = (.ok roster, st', n)) :
    ((∃ u ∈ roster.users, u.gitUserID = gid ∧ u.seatAssigned = true) →
      (SeatsCreate st githubID env).assignCalls = 0 ∧
      (SeatsCreate st githubID env).outcome = .success gid gid) ∧
    ((¬∃ u ∈ roster.users, u.gitUserID = gid ∧ u.seatAssigned = true) →
      (SeatsCreate st githubID env).assignCalls = 1) ∧
    (∀ i g, (SeatsCreate st githubID env).outcome = .success i g → i = gid ∧ g = gid) := by
  have hhs := hasSeat_eq st st' env.seatsFetch gid roster n hseats
  refine ⟨?_, ?_, ?_⟩
  · intro hex
    have hb : roster.users.any (fun u => u.gitUserID == gid && u.seatAssigned) = true :=
      (seatAny_iff roster gid).mpr hex
    simp [SeatsCreate, hres, hhs, hb]
  · intro hnex
    have hb : roster.users.any (fun u => u.gitUserID == gid && u.seatAssigned) = false := by
      cases h : roster.users.any (fun u => u.gitUserID == gid && u.seatAssigned) with
      | true => exact absurd ((seatAny_iff roster gid).mp h) hnex
      | false => rfl
    rcases hA : AssignSeat st' env.assignPost with ⟨r, st2⟩
    cases r with
    | error e => simp [SeatsCreate, hres, hhs, hb, hA]
    | ok u => simp [SeatsCreate, hres, hhs, hb, hA]
  · intro i g hsuc
    cases hb : roster.users.any (fun u => u.gitUserID == gid && u.seatAssigned) with
    | true =>
      rw [SeatsCreate, hres] at hsuc
      simp only [hhs, hb, if_true] at hsuc
      cases hsuc
      exact ⟨rfl, rfl⟩
    | false =>
      rw [SeatsCreate, hres] at hsuc
      simp only [hhs, hb] at hsuc
      rcases hA : AssignSeat st' env.assignPost with ⟨r, st2⟩
      rw [hA] at hsuc
      cases r with
      | error e => simp at hsuc
      | ok u =>
        simp at hsuc
        cases hsuc
        simp_all

/-- Witness for C1: with roster `rosterW` (user "42" assigned), Create for a
handle resolving to "42" makes zero assign calls and stores "42"; Create for a
handle resolving to "99" makes one assign call. -/
theorem create_idempotent_witness :
    ((SeatsCreate stEmptyW handleW createEnvW).assignCalls = 0 ∧
      (SeatsCreate stEmptyW handleW createEnvW).outcome = .success gidW gidW) ∧
    (SeatsCreate stEmptyW handleW createEnv2W).assignCalls = 1 :=
  ⟨(create_idempotent stEmptyW { seatsCache := some rosterW } handleW gidW createEnvW
      rosterW 1 rfl rfl).1 (by decide),
   (create_idempotent stEmptyW { seatsCache := some rosterW } handleW gid2W createEnv2W
      rosterW 1 rfl rfl).2.1 (by decide)⟩

/-- C2: when the stored id is absent from the roster or present with
`assigned=false`, Delete issues zero unassign calls and reports success; when
it is present and assigned, Delete issues exactly one unassign call. -/
theorem delete_idempotent (st st' : ClientState) (gid : String)
    (env : DeleteEnv) (roster : SeatsResponse) (n : Nat)
    (hseats : GetSeats st env.seatsFetch = (.ok roster, st', n)) :
    ((¬∃ u ∈ roster.users, u.gitUserID = gid ∧ u.seatAssigned = true) →
      (SeatsDelete st gid env).unassignCalls = 0 ∧
      (SeatsDelete st gid env).outcome = .success gid) ∧
    ((∃ u ∈ roster.users, u.gitUserID = gid ∧ u.seatAssigned = true) →
      (SeatsDelete st gid env).unassignCalls = 1) := by
  have hhs := hasSeat_eq st st' env.seatsFetch gid roster n hseats
  refine ⟨?_, ?_⟩
  · intro hnex
    have hb : roster.users.any (fun u => u.gitUserID == gid && u.seatAssigned) = false := by
      cases h : roster.users.any (fun u => u.gitUserID == gid && u.seatAssigned) with
      | true => exact absurd ((seatAny_iff roster gid).mp h) hnex
      | false => rfl
    simp [SeatsDelete, hhs, hb]
  · intro hex
    have hb : roster.users.any (fun u => u.gitUserID == gid && u.seatAssigned) = true :=
      (seatAny_iff roster gid).mpr hex
    rcases hU : UnassignSeat st' env.unassignPost with ⟨r, st2⟩
    cases r with
    | error e => simp [SeatsDelete, hhs, hb, hU]
    | ok u => simp [SeatsDelete, hhs, hb, hU]

/-- Witness for C2: deleting the unassigned id "99" over `rosterW` makes zero
unassign calls and succeeds; deleting the assigned id "42" makes one. -/
theorem delete_idempotent_witness :
    ((SeatsDelete stEmptyW gid2W delEnvW).unassignCalls = 0 ∧
      (SeatsDelete stEmptyW gid2W delEnvW).outcome = .success gid2W) ∧
    (SeatsDelete stEmptyW gidW delEnvW).unassignCalls = 1 :=
  ⟨(delete_idempotent stEmptyW { seatsCache := some rosterW } gid2W delEnvW
      rosterW 1 rfl).1 (by decide),
   (delete_idempotent stEmptyW { seatsCache := some rosterW } gidW delEnvW
      rosterW 1 rfl).2 (by decide)⟩

/-- C7: a `GetSeats` on a cold cache performs exactly one upstream fetch and,
on success, stores the snapshot; a `GetSeats` on a warm cache returns the
stored snapshot with zero fetches and leaves the state unchanged;
`InvalidateSeatsCache` merely clears the stored snapshot (it performs no
fetch by construction); every successful assign/unassign leaves the cache
cleared; and a cleared cache makes the next `GetSeats` fetch afresh. -/
theorem seats_cache_read_through (st st2 : ClientState)
    (fetch f2 post : Except ReqErr RespBody) (body : RespBody)
    (seats s0 : SeatsResponse) :
    (st.seatsCache = none → (GetSeats st fetch).2.2 = 1) ∧
    (st.seatsCache = none → fetch = .ok body → body.seatsDoc = some seats →
      GetSeats st fetch = (.ok seats, { seatsCache := some seats }, 1)) ∧
    (st.seatsCache = some s0 → GetSeats st fetch = (.ok s0, st, 0)) ∧
    (InvalidateSeatsCache st).seatsCache = none ∧
    ((AssignSeat st post).1 = .ok () → ((AssignSeat st post).2).seatsCache = none) ∧
    ((UnassignSeat st post).1 = .ok () → ((UnassignSeat st post).2).seatsCache = none) ∧
    (st2.seatsCache = none → (GetSeats st2 f2).2.2 = 1) := by
  refine ⟨?_, ?_, ?_, rfl, ?_, ?_, ?_⟩
  · intro h
    cases fetch with
    | error e => simp [GetSeats, h]
    | ok b =>
      cases hb : b.seatsDoc with
      | none => simp [GetSeats, h, hb]
      | some s => simp [GetSeats, h, hb]
  · intro h hf hd
    simp [GetSeats, h, hf, hd]
  · intro h
    simp [GetSeats, h]
  · intro hok
    cases post with
    | error e => simp [AssignSeat] at hok
    | ok b =>
      cases hb : b.successDoc with
      | none => simp [AssignSeat, hb] at hok
      | some succ =>
        cases succ with
        | false => simp [AssignSeat, hb] at hok
        | true => simp [AssignSeat, hb, InvalidateSeatsCache]
  · intro hok
    cases post with
    | error e => simp [UnassignSeat] at hok
    | ok b =>
      cases hb : b.successDoc with
      | none => simp [UnassignSeat, hb] at hok
      | some succ =>
        cases succ with
        | false => simp [UnassignSeat, hb] at hok
        | true => simp [UnassignSeat, hb, InvalidateSeatsCache]
  · intro h
    cases f2 with
    | error e => simp [GetSeats, h]
    | ok b =>
      cases hb : b.seatsDoc with
      | none => simp [GetSeats, h, hb]
      | some s => simp [GetSeats, h, hb]

/-- Witness for C7: cold fetch stores `rosterW` in one fetch; a second get on
the warmed state returns it with zero fetches; a successful assign clears the
cache again. -/
theorem seats_cache_read_through_witness :
    GetSeats stEmptyW (.ok rosterBodyW) = (.ok rosterW, { seatsCache := some rosterW }, 1) ∧
    GetSeats { seatsCache := some rosterW } (.ok rosterBodyW) =
      (.ok rosterW, { seatsCache := some rosterW }, 0) ∧
    ((AssignSeat { seatsCache := some rosterW } (.ok successBodyW)).2).seatsCache = none :=
  ⟨(seats_cache_read_through stEmptyW stEmptyW (.ok rosterBodyW) (.ok rosterBodyW)
      (.ok successBodyW) rosterBodyW rosterW rosterW).2.1 rfl rfl rfl,
   (seats_cache_read_through { seatsCache := some rosterW } stEmptyW (.ok rosterBodyW)
      (.ok rosterBodyW) (.ok successBodyW) rosterBodyW rosterW rosterW).2.2.1 rfl,
   (seats_cache_read_through { seatsCache := some rosterW } stEmptyW (.ok rosterBodyW)
      (.ok rosterBodyW) (.ok successBodyW) rosterBodyW rosterW rosterW).2.2.2.2.1
     (by decide)⟩

/-- C8: an HTTP-successful assign/unassign whose body carries `success:false`
returns the distinct operation-reported-failure error, and on every error path
of assign/unassign the client state — hence the seats cache — is unchanged:
invalidation happens only after a confirmed `success:true`. -/
theorem logical_failure_no_invalidate (st : ClientState) (body : RespBody)
    (post : Except ReqErr RespBody)
    (hb : post = .ok body) (hs : body.successDoc = some false) :
    AssignSeat st post = (.error .assignFailed, st) ∧
    UnassignSeat st post = (.error .unassignFailed, st) ∧
    (∀ q e, (AssignSeat st q).1 = .error e → (AssignSeat st q).2 = st) ∧
    (∀ q e, (UnassignSeat st q).1 = .error e → (UnassignSeat st q).2 = st) ∧
    (∀ e, ClientErr.assignFailed ≠ ClientErr.req e ∧
      ClientErr.assignFailed ≠ ClientErr.unmarshal) ∧
    (∀ e, ClientErr.unassignFailed ≠ ClientErr.req e ∧
      ClientErr.unassignFailed ≠ ClientErr.unmarshal) := by
  refine ⟨by simp [AssignSeat, hb, hs], by simp [UnassignSeat, hb, hs], ?_, ?_, ?_, ?_⟩
  · intro q e herr
    cases q with
    | error e2 => simp [AssignSeat]
    | ok b =>
      cases hd : b.successDoc with
      | none => simp [AssignSeat, hd]
      | some succ =>
        cases succ with
        | false => simp [AssignSeat, hd]
        | true => simp [AssignSeat, hd] at herr
  · intro q e herr
    cases q with
    | error e2 => simp [UnassignSeat]
    | ok b =>
      cases hd : b.successDoc with
      | none => simp [UnassignSeat, hd]
      | some succ =>
        cases succ with
        | false => simp [UnassignSeat, hd]
        | true => simp [UnassignSeat, hd] at herr
  · intro e; exact ⟨by simp, by simp⟩
  · intro e; exact ⟨by simp, by simp⟩

/-- Witness for C8: a `success:false` body on a warm cache leaves the cache
intact and yields the distinct failure errors. -/
theorem logical_failure_no_invalidate_witness :
    AssignSeat { seatsCache := some rosterW } (.ok failBodyW) =
      (.error .assignFailed, { seatsCache := some rosterW }) ∧
    UnassignSeat { seatsCache := some rosterW } (.ok failBodyW) =
      (.error .unassignFailed, { seatsCache := some rosterW }) :=
  ⟨(logical_failure_no_invalidate { seatsCache := some rosterW } failBodyW
      (.ok failBodyW) rfl rfl).1,
   (logical_failure_no_invalidate { seatsCache := some rosterW } failBodyW
      (.ok failBodyW) rfl rfl).2.1⟩

/-- C9: `HasSeat` answers `true` exactly when the roster holds a record with
the given stable id and `assigned=true`; whenever the roster fetch succeeds it
answers (absence is `false`, never an error); Read on an id for which
`HasSeat` is `false` signals removal from tracked state — an outcome distinct
from every error — and when `HasSeat` is `true` the tracked data is kept
unchanged. -/
theorem hasSeat_read_drop (st st' : ClientState) (fetch : Except ReqErr RespBody)
    (gid : String) (roster : SeatsResponse) (n : Nat)
    (hseats : GetSeats st fetch = (.ok roster, st', n)) :
    ((HasSeat st fetch gid).1 = .ok true ↔
      ∃ u ∈ roster.users, u.gitUserID = gid ∧ u.seatAssigned = true) ∧
    (∃ b, (HasSeat st fetch gid).1 = .ok b) ∧
    ((HasSeat st fetch gid).1 = .ok false → (SeatsRead st gid fetch).1 = .removed gid) ∧
    ((HasSeat st fetch gid).1 = .ok true → (SeatsRead st gid fetch).1 = .kept gid) ∧
    (∀ e, ReadOutcome.removed gid ≠ ReadOutcome.errRead gid e) := by
  have hhs := hasSeat_eq st st' fetch gid roster n hseats
  refine ⟨?_, ?_, ?_, ?_, ?_⟩
  · rw [hhs]
    simp only [Except.ok.injEq]
    exact seatAny_iff roster gid
  · exact ⟨_, by rw [hhs]⟩
  · intro h
    rw [hhs] at h
    simp only [Except.ok.injEq] at h
    simp [SeatsRead, hhs, h]
  · intro h
    rw [hhs] at h
    simp only [Except.ok.injEq] at h
    simp [SeatsRead, hhs, h]
  · intro e
    simp

/-- Witness for C9: over `rosterW`, `HasSeat` is true for "42"; for the absent
"99" it is false and Read signals removal. -/
theorem hasSeat_read_drop_witness :
    ((HasSeat stEmptyW (.ok rosterBodyW) gidW).1 = .ok true ↔
      ∃ u ∈ rosterW.users, u.gitUserID = gidW ∧ u.seatAssigned = true) ∧
    (SeatsRead stEmptyW gid2W (.ok rosterBodyW)).1 = .removed gid2W :=
  ⟨(hasSeat_read_drop stEmptyW { seatsCache := some rosterW } (.ok rosterBodyW)
      gidW rosterW 1 rfl).1,
   (hasSeat_read_drop stEmptyW { seatsCache := some rosterW } (.ok rosterBodyW)
      gid2W rosterW 1 rfl).2.2.1 (by decide)⟩

/-- C10: on a cold cache, a failing roster fetch or an unparsable roster body
makes `GetSeats` return the error with the cache left empty (errors are never
cached), and any subsequent `GetSeats` on that cold state performs a fresh
upstream fetch. -/
theorem getSeats_error_not_cached (st : ClientState)
    (fetch f2 : Except ReqErr RespBody) (body : RespBody) (e : ReqErr)
    (hc : st.seatsCache = none) :
    (fetch = .error e → GetSeats st fetch = (.error (.req e), st, 1)) ∧
    (fetch = .ok body → body.seatsDoc = none →
      GetSeats st fetch = (.error .unmarshal, st, 1)) ∧
    (GetSeats st f2).2.2 = 1 := by
  refine ⟨?_, ?_, ?_⟩
  · intro hf
    simp [GetSeats, hc, hf]
  · intro hf hd
    simp [GetSeats, hc, hf, hd]
  · cases f2 with
    | error e2 => simp [GetSeats, hc]
    | ok b =>
      cases hb : b.seatsDoc with
      | none => simp [GetSeats, hc, hb]
      | some s => simp [GetSeats, hc, hb]

/-- Witness for C10: a transport-level failure and an unparsable body each
leave the empty cache empty and report one fetch. -/
theorem getSeats_error_not_cached_witness :
    GetSeats stEmptyW (.error (.exhausted 3 none)) =
      (.error (.req (.exhausted 3 none)), stEmptyW, 1) ∧
    GetSeats stEmptyW (.ok bodyW) = (.error .unmarshal, stEmptyW, 1) :=
  ⟨(getSeats_error_not_cached stEmptyW (.error (.exhausted 3 none)) (.ok rosterBodyW)
      bodyW (.exhausted 3 none) rfl).1 rfl,
   (getSeats_error_not_cached stEmptyW (.ok bodyW) (.ok rosterBodyW)
      bodyW (.exhausted 3 none) rfl).2.1 rfl rfl⟩
